import Mathlib

/-!
Verification of the fedcal appropriations-status engine.

This file shallowly embeds the interval-tree construction code of
`src/fedcal/_tree.py`, the date-conversion helpers of
`src/fedcal/time_utils.py`, and the constructor `to_fedstamp` of
`src/fedcal/fedstamp.py`, and proves or refutes the frozen claims about
them.  Parts of the repository that the claims depend on but that are not
present under `src/` (the static tables and constants of `constants.py`,
`time_utils.pdtimestamp_to_posix_day`, and the status resolver
`_dept_status.DepartmentState`) are modelled from the specification; each
such definition carries a doc comment starting with `Modelled from the
spec:`.

Conventions of the embedding:
- a day offset is an `Int` (days since the Unix epoch, the coordinate
  space of the trees);
- a `pandas.Timestamp` is modelled at day granularity by its day offset
  (every date representation the claims exercise is date-granular);
- an `intervaltree.IntervalTree` is the set of its interval records
  (the library stores a Python set of intervals);
- Python `dict` source tables are association lists.
-/

/-- Days from the Unix epoch (1970-01-01) to the civil date `y-m-d`,
the standard days-from-civil algorithm on `Int`.  This is the day-offset
meaning of a calendar date used throughout the embedding. -/
def daysFromCivil (y m d : Int) : Int :=
  let yy : Int := if m ≤ 2 then y - 1 else y
  let era : Int := yy.fdiv 400
  let yoe : Int := yy - era * 400
  let mp : Int := (m + 9).emod 12
  let doy : Int := (153 * mp + 2).fdiv 5 + d - 1
  let doe : Int := yoe * 365 + yoe.fdiv 4 - yoe.fdiv 100 + doy
  era * 146097 + doe - 719468

/-- A supported date-like input, as a closed variant over the concrete
representations the claims exercise: a Python `int` (which
`time_utils.to_timestamp` reinterprets as POSIX seconds), and a
calendar-date representation (`YearMonthDay`, `datetime.date`, ISO string,
and friends, which all reach `_stamp_date` as the midnight timestamp of
that civil date). -/
inductive DateLike
  | posix (n : Int)
  | ymd (y m d : Int)
deriving DecidableEq

/-- Embeds `time_utils.to_timestamp` (src/fedcal/time_utils.py:176-286) at
day granularity.  An `int` dispatches to `_posix_to_timestamp`, which calls
`date.fromtimestamp` on it — i.e. it is read as POSIX seconds and floored
to a civil date, modelled in UTC as floor division by 86400.  A calendar
representation becomes the timestamp of that civil date. -/
def to_timestamp : DateLike → Int
  | .posix n => n.fdiv 86400
  | .ymd y m d => daysFromCivil y m d

/-- Modelled from the spec: `time_utils.pdtimestamp_to_posix_day` is not
under `src/` (only its callers are).  Per the spec glossary a day offset is
the integer count of days since a fixed epoch, and the function returns
"the number of days since the Unix epoch ... normalized to midnight"; our
timestamp model already is that day offset, so the conversion is the
identity. -/
def pdtimestamp_to_posix_day (timestamp : Int) : Int := timestamp

/-- Embeds `_get_date_interval` (src/fedcal/_tree.py:60-93).  The Python
guard `start is not isinstance(start, int)` is true for every supported
value (for an int `n` it reads `n is not True`, which is true), so both
components are always converted through `to_timestamp`; in particular an
int is reinterpreted as POSIX seconds rather than kept as a day offset.
The trailing `if start == end: end = end` of the source is a no-op. -/
def _get_date_interval (dates : DateLike × DateLike) : Int × Int :=
  let start : Int := pdtimestamp_to_posix_day (to_timestamp dates.1)
  let endv : Int := pdtimestamp_to_posix_day (to_timestamp dates.2)
  (start, endv)

/-- Embeds `_get_overlap_interval` (src/fedcal/_tree.py:96-145).  The two
`is not isinstance(..., int)` guards are again identically true, so both
range bounds are converted.  After `start_range` is rebound to its
converted integer value, the `end_range` branch converts
`time_utils.to_timestamp(start_range)` — the already-converted
`start_range`, not `end_range` — so the effective upper bound is the
double conversion of the lower bound. -/
def _get_overlap_interval (start endv : Int)
    (date_range : Option (DateLike × DateLike)) : Option (Int × Int) :=
  match date_range with
  | none => some (start, endv)
  | some (sr, _er) =>
    let start_range : Int := pdtimestamp_to_posix_day (to_timestamp sr)
    let end_range : Int :=
      pdtimestamp_to_posix_day (to_timestamp (DateLike.posix start_range))
    if endv < start_range ∨ start > end_range then none
    else some (max start start_range, min endv end_range)

/-- The clip operation as the spec words it (section 4.1): absent range
leaves the interval unchanged; a disjoint range yields the no-overlap
signal; otherwise the result is the intersection
`(max(start, range_start), min(end, range_end))`.  This spec-side
definition exists to exhibit where `_get_overlap_interval` diverges from
it. -/
def clipSpec (start endv : Int) (range? : Option (Int × Int)) :
    Option (Int × Int) :=
  match range? with
  | none => some (start, endv)
  | some (sr, er) =>
    if endv < sr ∨ start > er then none
    else some (max start sr, min endv er)

/-- Modelled from the spec: the department enumeration `constants.Dept` is
not under `src/`.  The spec describes a fixed enumerated set of executive
departments, one of which (DHS) forms mid-timeline; a representative
fixed enumeration suffices for every claim. -/
inductive Dept
  | DHS
  | DOD
  | DOS
  | DOJ
  | HHS
  | USDT
deriving DecidableEq, Fintype

/-- Modelled from the spec: `constants.DEPTS_SET` is not under `src/`.
It is the full department set that the CR builder inverts complement sets
against. -/
def DEPTS_SET : Finset Dept := Finset.univ

/-- Modelled from the spec: `constants.DHS_FORMED` is not under `src/`.
It is the DHS-formation day offset; DHS formed 2002-11-25, day 12016. -/
def DHS_FORMED : Int := 12016

/-- Modelled from the spec: `constants.CR_DATA_CUTOFF_DATE` is not under
`src/`.  It is the earliest day with CR data (the FY99 start, 1998-10-01,
day 10500); dates strictly before it resolve to the cutoff default. -/
def CR_DATA_CUTOFF_DATE : Int := 10500

/-- Modelled from the spec: `constants.ShutdownFlag` is not under `src/`.
Gap-table entries carry it to distinguish shutdowns from lesser gaps. -/
inductive ShutdownFlag
  | NO_SHUTDOWN
  | SHUTDOWN
deriving DecidableEq

/-- Modelled from the spec: `constants.STATUS_MAP` and the StatusTuple
values are not under `src/`.  The spec data model lists five categorical
status values; the five distinguishable StatusTuples that
`STATUS_MAP["DEFAULT_STATUS"]`, `STATUS_MAP["CR_STATUS"]`,
`STATUS_MAP["GAP_STATUS"]`, `STATUS_MAP["SHUTDOWN_STATUS"]` and
`STATUS_MAP["CR_DATA_CUTOFF_DEFAULT_STATUS"]` denote are modelled by the
corresponding StatusKind value. -/
inductive StatusKind
  | DEFAULT
  | CONTINUING_RESOLUTION
  | APPROPRIATIONS_GAP
  | SHUTDOWN
  | CR_DATA_CUTOFF_DEFAULT
deriving DecidableEq

/-- One record of an `intervaltree.IntervalTree`: the begin bound, the
exclusive end bound (named `stop` because `end` is a Lean keyword), and
the assembled budget data `(set of departments, status)` that
`_tree.py` attaches via `addi(begin=..., end=..., data=...)`. -/
structure IntervalRec where
  first : Int
  stop : Int
  depts : Finset Dept
  status : StatusKind
deriving DecidableEq

/-- An `intervaltree.IntervalTree` is the set of its interval records. -/
abbrev IntervalTree := Finset IntervalRec

/-- A point-containment query `tree[p]`: all records whose half-open range
contains the day `p` (`begin <= p < end` in the intervaltree library). -/
def pointQuery (tree : IntervalTree) (p : Int) : Finset IntervalRec :=
  tree.filter (fun r => r.first ≤ p ∧ p < r.stop)

/-- The CR source-table type `CRMapType` of `_typing.py`: a mapping from
inclusive day intervals to the complement set of departments excluded
from the CR, embedded as an association list. -/
abbrev CRMapType := List ((Int × Int) × Finset Dept)

/-- The gap source-table type `AppropriationsGapsMapType` of `_typing.py`:
a mapping from inclusive day intervals to (affected departments,
shutdown flag), embedded as an association list. -/
abbrev AppropriationsGapsMapType :=
  List ((Int × Int) × (Finset Dept × ShutdownFlag))

/-- Embeds `CRTreeGrower._filter_cr_department_sets`
(src/fedcal/_tree.py:188-206): the stored set is the full department set
minus the complement set from the source table. -/
def _filter_cr_department_sets (departments : Finset Dept) : Finset Dept :=
  DEPTS_SET \ departments

/-- The department set the CR builder attaches to the record for a source
entry (src/fedcal/_tree.py:243-249): the inverted set, with DHS
additionally removed when the entry ends before DHS formation. -/
def crDepartments (entry : (Int × Int) × Finset Dept) : Finset Dept :=
  if entry.1.2 < DHS_FORMED then
    _filter_cr_department_sets entry.2 \ {Dept.DHS}
  else
    _filter_cr_department_sets entry.2

/-- The bounding range actually handed to `_get_overlap_interval` by both
growers: `_get_date_interval(dates=dates) if dates else None`, whose
integer components arrive at `_get_overlap_interval` as Python ints. -/
def builderDateRange (dates : Option (DateLike × DateLike)) :
    Option (DateLike × DateLike) :=
  dates.map (fun ds =>
    (DateLike.posix (_get_date_interval ds).1,
     DateLike.posix (_get_date_interval ds).2))

/-- The body of the `for` loop of `CRTreeGrower.grow_cr_tree`
(src/fedcal/_tree.py:241-255): when the entry passes the overlap check,
`addi` the record `[start, end + 1)` with the filtered departments and
the CR status (`STATUS_MAP["CR_STATUS"]`); otherwise the tree is left
unchanged. -/
def crStep (date_range : Option (DateLike × DateLike)) (acc : IntervalTree)
    (entry : (Int × Int) × Finset Dept) : IntervalTree :=
  if (_get_overlap_interval entry.1.1 entry.1.2 date_range).isSome then
    insert
      (IntervalRec.mk entry.1.1 (entry.1.2 + 1) (crDepartments entry)
        StatusKind.CONTINUING_RESOLUTION)
      acc
  else acc

/-- Embeds `CRTreeGrower.grow_cr_tree` (src/fedcal/_tree.py:208-256).
`if self.tree: return self.tree` is Python truthiness: a populated
internal tree is returned unchanged; an empty one is grown from the
source table, restricted by the optional bounding dates. -/
def grow_cr_tree (tree : IntervalTree) (cr_departments : CRMapType)
    (dates : Option (DateLike × DateLike)) : IntervalTree :=
  if tree ≠ ∅ then tree
  else cr_departments.foldl (crStep (builderDateRange dates)) tree

/-- The body of the `for` loop of
`AppropriationsGapsTreeGrower.grow_appropriation_gaps_tree`
(src/fedcal/_tree.py:335-348): the department set is used directly; the
status is the shutdown tuple when the flag is set, else the gap tuple. -/
def gapStep (date_range : Option (DateLike × DateLike)) (acc : IntervalTree)
    (entry : (Int × Int) × (Finset Dept × ShutdownFlag)) : IntervalTree :=
  if (_get_overlap_interval entry.1.1 entry.1.2 date_range).isSome then
    insert
      (IntervalRec.mk entry.1.1 (entry.1.2 + 1) entry.2.1
        (if entry.2.2 = ShutdownFlag.SHUTDOWN then StatusKind.SHUTDOWN
         else StatusKind.APPROPRIATIONS_GAP))
      acc
  else acc

/-- Embeds `AppropriationsGapsTreeGrower.grow_appropriation_gaps_tree`
(src/fedcal/_tree.py:297-349), with the same populated-tree early return
as the CR grower. -/
def grow_appropriation_gaps_tree (tree : IntervalTree)
    (appropriations_gaps : AppropriationsGapsMapType)
    (dates : Option (DateLike × DateLike)) : IntervalTree :=
  if tree ≠ ∅ then tree
  else appropriations_gaps.foldl (gapStep (builderDateRange dates)) tree

/-- The class-level state of the singleton `Tree`
(src/fedcal/_tree.py:412-416): the two grower instances (modelled by the
trees they hold, since a post-init grower is exactly its grown tree), the
two cached sub-trees, and the cached unified tree.  `none` is Python
`None`. -/
structure TreeState where
  gap_instance : Option IntervalTree
  cr_instance : Option IntervalTree
  cr_tree : Option IntervalTree
  gap_tree : Option IntervalTree
  tree : Option IntervalTree
deriving DecidableEq

/-- The class state before any `Tree()` is constructed: every class
variable is `None`. -/
def TreeState.initial : TreeState := ⟨none, none, none, none, none⟩

/-- Python truthiness of an `IntervalTree | None` class variable:
falsy when `None` and when the tree is empty. -/
def optTreeTruthy : Option IntervalTree → Bool
  | none => false
  | some t => decide (t ≠ ∅)

/-- Embeds `Tree.initialize_tree` (src/fedcal/_tree.py:469-489), renamed
`init_tree` here.  `if cls.tree: return cls.tree` returns the cached
unified tree when it is truthy; otherwise the grower instances are
constructed if absent (`CRTreeGrower()` and
`AppropriationsGapsTreeGrower()` grow from the default source tables,
passed in here because `constants.py` is not under `src/`), the sub-tree
class variables are filled from the instances when falsy, and the result
is `cls.cr_tree.union(other=cls.gap_tree)`.  Note the method returns the
union but only `__attrs_post_init__` assigns `cls.tree`. -/
def init_tree (crT : CRMapType) (gapT : AppropriationsGapsMapType)
    (s : TreeState) : IntervalTree × TreeState :=
  if optTreeTruthy s.tree then (s.tree.getD ∅, s)
  else
    let cr_instance : IntervalTree :=
      s.cr_instance.getD (grow_cr_tree ∅ crT none)
    let gap_instance : IntervalTree :=
      s.gap_instance.getD (grow_appropriation_gaps_tree ∅ gapT none)
    let cr_tree : IntervalTree :=
      if optTreeTruthy s.cr_tree then s.cr_tree.getD ∅ else cr_instance
    let gap_tree : IntervalTree :=
      if optTreeTruthy s.gap_tree then s.gap_tree.getD ∅ else gap_instance
    (cr_tree ∪ gap_tree,
      ⟨some gap_instance, some cr_instance, some cr_tree, some gap_tree,
        s.tree⟩)

/-- Embeds constructing `Tree()`: `__attrs_post_init__`
(src/fedcal/_tree.py:418-419) runs `initialize_tree` against the current
class state and assigns its result to `cls.tree`. -/
def treeNew (crT : CRMapType) (gapT : AppropriationsGapsMapType)
    (s : TreeState) : TreeState :=
  let r := init_tree crT gapT s
  { r.2 with tree := some r.1 }

/-- Modelled from the spec: department activity ranges live in
`constants.py`, which is not under `src/`.  The spec data model says each
department carries an active date range and that DHS forms mid-timeline,
so DHS is active only from its formation day on. -/
def activeOn (d : Dept) (T : Int) : Bool :=
  match d with
  | Dept.DHS => decide (DHS_FORMED ≤ T)
  | _ => true

/-- The records of the tree matched for department `D` at day `T`: the
point-containment query restricted to records whose department set
contains `D`. -/
def matchedRecords (tree : IntervalTree) (T : Int) (D : Dept) :
    Finset IntervalRec :=
  (pointQuery tree T).filter (fun r => D ∈ r.depts)

/-- The set of statuses the matched records assign to `D` at `T`. -/
def matchedStatuses (tree : IntervalTree) (T : Int) (D : Dept) :
    Finset StatusKind :=
  (matchedRecords tree T D).image IntervalRec.status

/-- The baseline status of spec section 4.5 step 3: every active
department defaults to DEFAULT, except that dates strictly before the
earliest date with CR data use CR_DATA_CUTOFF_DEFAULT. -/
def baseStatus (T : Int) : StatusKind :=
  if T < CR_DATA_CUTOFF_DATE then StatusKind.CR_DATA_CUTOFF_DEFAULT
  else StatusKind.DEFAULT

/-- The five status values in some fixed enumeration order, used to pick
the element of a known-singleton status set computably. -/
def statusList : List StatusKind :=
  [StatusKind.DEFAULT, StatusKind.CONTINUING_RESOLUTION,
   StatusKind.APPROPRIATIONS_GAP, StatusKind.SHUTDOWN,
   StatusKind.CR_DATA_CUTOFF_DEFAULT]

/-- The first enumerated status belonging to the given set; on a
singleton set this is exactly its element. -/
def pickStatus (ss : Finset StatusKind) : Option StatusKind :=
  statusList.find? (fun s => s ∈ ss)

/-- Modelled from the spec: the Status Resolver
(`_dept_status.DepartmentState`, spec section 4.5) is not under `src/`
(only its callers in `fedstamp.py` are).  For an active department the
result is the baseline when no stored interval covers the day, the
unique matched status when the matched records agree, and the flagged
data-integrity violation (`none`) when two matched records assign
different statuses; an inactive department is absent from the mapping. -/
def resolveDept (tree : IntervalTree) (T : Int) (D : Dept) :
    Option StatusKind :=
  if activeOn D T then
    if matchedStatuses tree T D = ∅ then some (baseStatus T)
    else if (matchedStatuses tree T D).card = 1 then
      pickStatus (matchedStatuses tree T D)
    else none
  else none

/-- Embeds `FedStamp` at the granularity the claims need: the wrapped
`pdtimestamp` (src/fedcal/fedstamp.py:38-53), at day granularity. -/
structure FedStamp where
  pdtimestamp : Int
deriving DecidableEq

/-- Embeds `_timetuple_to_timestamp` (src/fedcal/time_utils.py:269-286),
the `to_timestamp` branch that a tuple argument dispatches to: a tuple of
length other than three raises ValueError; the components are read as
year, month and day (already integers here); a year outside 1970-9999
raises ValueError; otherwise the result is the timestamp of that civil
date. -/
def _timetuple_to_timestamp (date_input : List Int) : Except String Int :=
  match date_input with
  | [year, month, day] =>
    if 1970 ≤ year ∧ year ≤ 9999 then
      Except.ok (daysFromCivil year month day)
    else
      Except.error "Year must be a four-digit number, and not before 1970."
  | _ =>
    Except.error
      "Timetuple input requires a tuple with four-digit year, month, day as integers or integer-convertible strings."

/-- Embeds `to_fedstamp` (src/fedcal/fedstamp.py:981-1003) for integer
arguments.  `count := len(date)` must be 1 or 3 (a zero count makes the
walrus guard falsy, any other count fails the inner membership test, and
both fall through to `raise ValueError`); a surviving call passes the
whole argument tuple to `time_utils.to_timestamp`, which dispatches it to
`_timetuple_to_timestamp`. -/
def to_fedstamp (date : List Int) : Except String FedStamp :=
  let count := date.length
  if count = 1 ∨ count = 3 then
    (_timetuple_to_timestamp date).map (fun t => FedStamp.mk t)
  else
    Except.error
      "invalid number of arguments: to_fedstamp() requires either 1 argument, or 3 integers as YYYY, M, D"

/-- A fold whose step never removes records only grows the tree. -/
theorem foldl_step_subset {α : Type} (f : IntervalTree → α → IntervalTree)
    (hf : ∀ acc a, acc ⊆ f acc a) (l : List α) :
    ∀ acc : IntervalTree, acc ⊆ l.foldl f acc := by
  induction l with
  | nil => intro acc; exact Finset.Subset.refl acc
  | cons a l ih =>
    intro acc
    exact Finset.Subset.trans (hf acc a) (ih (f acc a))

/-- If processing the element `a` always inserts the record `r`, and the
step never removes records, then folding over a list containing `a`
leaves `r` in the result. -/
theorem mem_foldl_of_mem {α : Type} (f : IntervalTree → α → IntervalTree)
    (hf : ∀ acc a, acc ⊆ f acc a) (r : IntervalRec) (a : α)
    (hr : ∀ acc : IntervalTree, r ∈ f acc a) :
    ∀ (l : List α) (acc : IntervalTree), a ∈ l → r ∈ l.foldl f acc := by
  intro l
  induction l with
  | nil => intro acc ha; cases ha
  | cons b l ih =>
    intro acc ha
    rcases List.mem_cons.mp ha with h | h
    · subst h
      exact foldl_step_subset f hf l (f acc a) (hr acc)
    · exact ih (f acc b) h

/-- An invariant preserved by every step of a fold holds of every record
of the result. -/
theorem forall_mem_foldl {α : Type} (f : IntervalTree → α → IntervalTree)
    (P : IntervalRec → Prop)
    (hstep : ∀ (acc : IntervalTree) (a : α) (r : IntervalRec),
      (∀ x ∈ acc, P x) → r ∈ f acc a → P r) :
    ∀ (l : List α) (acc : IntervalTree), (∀ x ∈ acc, P x) →
      ∀ r ∈ l.foldl f acc, P r := by
  intro l
  induction l with
  | nil => intro acc hacc r hr; exact hacc r hr
  | cons b l ih =>
    intro acc hacc
    exact ih (f acc b) (fun x hx => hstep acc b x hacc hx)

/-- The CR loop body never removes records. -/
theorem crStep_subset (dr : Option (DateLike × DateLike))
    (acc : IntervalTree) (e : (Int × Int) × Finset Dept) :
    acc ⊆ crStep dr acc e := by
  rw [crStep]
  by_cases h : (_get_overlap_interval e.1.1 e.1.2 dr).isSome = true
  · simp only [h, if_true]
    exact Finset.subset_insert _ acc
  · simp [h]

/-- Processing a CR entry that passes the overlap check inserts its
half-open record. -/
theorem mem_crStep (dr : Option (DateLike × DateLike))
    (e : (Int × Int) × Finset Dept)
    (hg : (_get_overlap_interval e.1.1 e.1.2 dr).isSome = true)
    (acc : IntervalTree) :
    IntervalRec.mk e.1.1 (e.1.2 + 1) (crDepartments e)
      StatusKind.CONTINUING_RESOLUTION ∈ crStep dr acc e := by
  rw [crStep]
  simp only [hg, if_true]
  exact Finset.mem_insert_self _ acc

/-- The gap loop body never removes records. -/
theorem gapStep_subset (dr : Option (DateLike × DateLike))
    (acc : IntervalTree) (e : (Int × Int) × (Finset Dept × ShutdownFlag)) :
    acc ⊆ gapStep dr acc e := by
  rw [gapStep]
  by_cases h : (_get_overlap_interval e.1.1 e.1.2 dr).isSome = true
  · simp only [h, if_true]
    exact Finset.subset_insert _ acc
  · simp [h]

/-- Processing a gap entry that passes the overlap check inserts its
half-open record. -/
theorem mem_gapStep (dr : Option (DateLike × DateLike))
    (e : (Int × Int) × (Finset Dept × ShutdownFlag))
    (hg : (_get_overlap_interval e.1.1 e.1.2 dr).isSome = true)
    (acc : IntervalTree) :
    IntervalRec.mk e.1.1 (e.1.2 + 1) e.2.1
      (if e.2.2 = ShutdownFlag.SHUTDOWN then StatusKind.SHUTDOWN
       else StatusKind.APPROPRIATIONS_GAP) ∈ gapStep dr acc e := by
  rw [gapStep]
  simp only [hg, if_true]
  exact Finset.mem_insert_self _ acc

/-- Growing from an empty internal tree takes the build path. -/
theorem grow_cr_tree_empty (crT : CRMapType)
    (dates : Option (DateLike × DateLike)) :
    grow_cr_tree ∅ crT dates =
      crT.foldl (crStep (builderDateRange dates)) ∅ := by
  rw [grow_cr_tree]
  simp

/-- Growing from an empty internal tree takes the build path. -/
theorem grow_gap_tree_empty (gapT : AppropriationsGapsMapType)
    (dates : Option (DateLike × DateLike)) :
    grow_appropriation_gaps_tree ∅ gapT dates =
      gapT.foldl (gapStep (builderDateRange dates)) ∅ := by
  rw [grow_appropriation_gaps_tree]
  simp

/-- The record the CR builder stores for a surviving source entry is in
the built tree. -/
theorem mem_grow_cr_tree (crT : CRMapType)
    (dates : Option (DateLike × DateLike)) (S E : Int) (ds : Finset Dept)
    (hmem : ((S, E), ds) ∈ crT)
    (hov : (_get_overlap_interval S E (builderDateRange dates)).isSome
      = true) :
    IntervalRec.mk S (E + 1) (crDepartments ((S, E), ds))
      StatusKind.CONTINUING_RESOLUTION ∈ grow_cr_tree ∅ crT dates := by
  rw [grow_cr_tree_empty]
  exact mem_foldl_of_mem _ (crStep_subset _) _ _
    (mem_crStep _ ((S, E), ds) hov) crT ∅ hmem

/-- The record the gap builder stores for a surviving source entry is in
the built tree. -/
theorem mem_grow_gap_tree (gapT : AppropriationsGapsMapType)
    (dates : Option (DateLike × DateLike)) (S E : Int)
    (ds : Finset Dept) (flag : ShutdownFlag)
    (hmem : ((S, E), (ds, flag)) ∈ gapT)
    (hov : (_get_overlap_interval S E (builderDateRange dates)).isSome
      = true) :
    IntervalRec.mk S (E + 1) ds
      (if flag = ShutdownFlag.SHUTDOWN then StatusKind.SHUTDOWN
       else StatusKind.APPROPRIATIONS_GAP)
      ∈ grow_appropriation_gaps_tree ∅ gapT dates := by
  rw [grow_gap_tree_empty]
  exact mem_foldl_of_mem _ (gapStep_subset _) _ _
    (mem_gapStep _ ((S, E), (ds, flag)) hov) gapT ∅ hmem

/-- A record of the tree whose half-open range contains the day is
returned by the point query. -/
theorem mem_pointQuery (tree : IntervalTree) (r : IntervalRec)
    (hr : r ∈ tree) (p : Int) (h1 : r.first ≤ p) (h2 : p < r.stop) :
    r ∈ pointQuery tree p := by
  rw [pointQuery, Finset.mem_filter]
  exact ⟨hr, h1, h2⟩

/-- A record whose exclusive end is at or below the day is not returned
by the point query. -/
theorem not_mem_pointQuery (tree : IntervalTree) (r : IntervalRec)
    (p : Int) (h : ¬ p < r.stop) : r ∉ pointQuery tree p := by
  rw [pointQuery, Finset.mem_filter]
  rintro ⟨-, -, h2⟩
  exact h h2

/-- C1: for every source-table entry with inclusive day range `(S, E)`
that survives the overlap check, the CR builder and the Gap builder store
the half-open interval `[S, E + 1)`: a point-containment query at day `S`
and at day `E` returns that interval, and a query at day `E + 1` does
not. -/
theorem half_open_interval_storage
    (crT : CRMapType) (gapT : AppropriationsGapsMapType)
    (dates gdates : Option (DateLike × DateLike))
    (S E S2 E2 : Int) (ds gds : Finset Dept) (flag : ShutdownFlag)
    (hmem : ((S, E), ds) ∈ crT)
    (hov : (_get_overlap_interval S E (builderDateRange dates)).isSome
      = true)
    (hSE : S ≤ E)
    (hmem2 : ((S2, E2), (gds, flag)) ∈ gapT)
    (hov2 : (_get_overlap_interval S2 E2 (builderDateRange gdates)).isSome
      = true)
    (hSE2 : S2 ≤ E2) :
    (∃ r ∈ grow_cr_tree ∅ crT dates,
      r.first = S ∧ r.stop = E + 1 ∧
      r ∈ pointQuery (grow_cr_tree ∅ crT dates) S ∧
      r ∈ pointQuery (grow_cr_tree ∅ crT dates) E ∧
      r ∉ pointQuery (grow_cr_tree ∅ crT dates) (E + 1)) ∧
    (∃ r ∈ grow_appropriation_gaps_tree ∅ gapT gdates,
      r.first = S2 ∧ r.stop = E2 + 1 ∧
      r ∈ pointQuery (grow_appropriation_gaps_tree ∅ gapT gdates) S2 ∧
      r ∈ pointQuery (grow_appropriation_gaps_tree ∅ gapT gdates) E2 ∧
      r ∉ pointQuery (grow_appropriation_gaps_tree ∅ gapT gdates)
        (E2 + 1)) := by
  have hcr := mem_grow_cr_tree crT dates S E ds hmem hov
  have hgap := mem_grow_gap_tree gapT gdates S2 E2 gds flag hmem2 hov2
  constructor
  · refine ⟨_, hcr, rfl, rfl, ?_, ?_, ?_⟩
    · exact mem_pointQuery _ _ hcr S (le_refl S) (show S < E + 1 by omega)
    · exact mem_pointQuery _ _ hcr E hSE (show E < E + 1 by omega)
    · exact not_mem_pointQuery _ _ (E + 1)
        (show ¬ E + 1 < E + 1 by omega)
  · refine ⟨_, hgap, rfl, rfl, ?_, ?_, ?_⟩
    · exact mem_pointQuery _ _ hgap S2 (le_refl S2)
        (show S2 < E2 + 1 by omega)
    · exact mem_pointQuery _ _ hgap E2 hSE2 (show E2 < E2 + 1 by omega)
    · exact not_mem_pointQuery _ _ (E2 + 1)
        (show ¬ E2 + 1 < E2 + 1 by omega)

/-- Witness for C1 at the scenario tables of spec section 8: a CR entry
`((100, 130), complement set)` and a shutdown gap entry `((200, 205), ...)`
are stored half-open. -/
theorem half_open_interval_storage_witness :
    (∃ r ∈ grow_cr_tree ∅ [((100, 130), ({Dept.USDT} : Finset Dept))] none,
      r.first = 100 ∧ r.stop = 130 + 1 ∧
      r ∈ pointQuery
        (grow_cr_tree ∅ [((100, 130), ({Dept.USDT} : Finset Dept))] none)
        100 ∧
      r ∈ pointQuery
        (grow_cr_tree ∅ [((100, 130), ({Dept.USDT} : Finset Dept))] none)
        130 ∧
      r ∉ pointQuery
        (grow_cr_tree ∅ [((100, 130), ({Dept.USDT} : Finset Dept))] none)
        (130 + 1)) ∧
    (∃ r ∈ grow_appropriation_gaps_tree ∅
        [((200, 205), ({Dept.USDT}, ShutdownFlag.SHUTDOWN))] none,
      r.first = 200 ∧ r.stop = 205 + 1 ∧
      r ∈ pointQuery
        (grow_appropriation_gaps_tree ∅
          [((200, 205), ({Dept.USDT}, ShutdownFlag.SHUTDOWN))] none) 200 ∧
      r ∈ pointQuery
        (grow_appropriation_gaps_tree ∅
          [((200, 205), ({Dept.USDT}, ShutdownFlag.SHUTDOWN))] none) 205 ∧
      r ∉ pointQuery
        (grow_appropriation_gaps_tree ∅
          [((200, 205), ({Dept.USDT}, ShutdownFlag.SHUTDOWN))] none)
        (205 + 1)) :=
  half_open_interval_storage
    [((100, 130), {Dept.USDT})]
    [((200, 205), ({Dept.USDT}, ShutdownFlag.SHUTDOWN))]
    none none 100 130 200 205 {Dept.USDT} {Dept.USDT} ShutdownFlag.SHUTDOWN
    (by decide) (by decide) (by decide) (by decide) (by decide) (by decide)

/-- C3: for every CR source-table entry `((S, E), complement set)` that
survives the overlap check, the stored department set equals the full
department set minus the complement set, with DHS additionally removed
when `E` is before the DHS formation day; hence DHS appears in no stored
CR record ending before its formation date. -/
theorem cr_tree_department_sets (crT : CRMapType)
    (dates : Option (DateLike × DateLike)) (S E : Int) (ds : Finset Dept)
    (hmem : ((S, E), ds) ∈ crT)
    (hov : (_get_overlap_interval S E (builderDateRange dates)).isSome
      = true) :
    (∃ r ∈ grow_cr_tree ∅ crT dates,
      r.first = S ∧ r.stop = E + 1 ∧
      r.depts =
        (if E < DHS_FORMED then (DEPTS_SET \ ds) \ {Dept.DHS}
         else DEPTS_SET \ ds)) ∧
    (∀ r ∈ grow_cr_tree ∅ crT dates,
      r.stop ≤ DHS_FORMED → Dept.DHS ∉ r.depts) := by
  constructor
  · refine ⟨_, mem_grow_cr_tree crT dates S E ds hmem hov, rfl, rfl, ?_⟩
    show crDepartments ((S, E), ds) = _
    rw [crDepartments, _filter_cr_department_sets]
  · rw [grow_cr_tree_empty]
    refine forall_mem_foldl _ _ ?_ crT ∅ (by intro x hx; cases hx)
    intro acc e r hacc hr
    rw [crStep] at hr
    by_cases hg : (_get_overlap_interval e.1.1 e.1.2
        (builderDateRange dates)).isSome = true
    · simp only [hg, if_true, Finset.mem_insert] at hr
      rcases hr with hr | hr
      · subst hr
        intro hstop
        have hE : e.1.2 < DHS_FORMED := by
          have : e.1.2 + 1 ≤ DHS_FORMED := hstop
          omega
        rw [crDepartments, if_pos hE]
        simp [Finset.mem_sdiff]
      · exact hacc r hr
    · simp [hg] at hr
      exact hacc r hr

/-- Witness for C3: the pre-DHS CR entry `((100, 130), complement set)`
stores the inverted set with DHS removed, and no record of the built tree
ending before DHS formation contains DHS. -/
theorem cr_tree_department_sets_witness :
    (∃ r ∈ grow_cr_tree ∅ [((100, 130), ({Dept.USDT} : Finset Dept))] none,
      r.first = 100 ∧ r.stop = 130 + 1 ∧
      r.depts =
        (if (130 : Int) < DHS_FORMED
         then (DEPTS_SET \ {Dept.USDT}) \ {Dept.DHS}
         else DEPTS_SET \ {Dept.USDT})) ∧
    (∀ r ∈ grow_cr_tree ∅ [((100, 130), ({Dept.USDT} : Finset Dept))] none,
      r.stop ≤ DHS_FORMED → Dept.DHS ∉ r.depts) :=
  cr_tree_department_sets [((100, 130), {Dept.USDT})] none 100 130
    {Dept.USDT} (by decide) (by decide)

/-- When no stored record covers the day for the department, the matched
status set is empty. -/
theorem matchedStatuses_empty (tree : IntervalTree) (T : Int) (D : Dept)
    (hno : ∀ r ∈ tree, r.first ≤ T → T < r.stop → D ∉ r.depts) :
    matchedStatuses tree T D = ∅ := by
  rw [matchedStatuses]
  rw [Finset.image_eq_empty]
  rw [Finset.eq_empty_iff_forall_not_mem]
  intro r hr
  rw [matchedRecords, Finset.mem_filter] at hr
  rcases hr with ⟨hpq, hd⟩
  rw [pointQuery, Finset.mem_filter] at hpq
  exact hno r hpq.1 hpq.2.1 hpq.2.2 hd

/-- C2: for every department `D` active on date `T` with no stored
exception interval covering `T` for `D`, the resolved status of `D` is
CR_DATA_CUTOFF_DEFAULT when `T` is strictly before the CR-data cutoff
day, and DEFAULT when `T` is on or after the cutoff day. -/
theorem resolve_no_covering_interval_default (tree : IntervalTree)
    (T : Int) (D : Dept) (hact : activeOn D T = true)
    (hno : ∀ r ∈ tree, r.first ≤ T → T < r.stop → D ∉ r.depts) :
    resolveDept tree T D =
      some (if T < CR_DATA_CUTOFF_DATE then StatusKind.CR_DATA_CUTOFF_DEFAULT
            else StatusKind.DEFAULT) := by
  rw [resolveDept, hact, matchedStatuses_empty tree T D hno]
  simp [baseStatus]

/-- Witness for C2 on the empty tree: day 9000 is strictly before the
CR-data cutoff, so an active department with no covering interval
resolves to the cutoff default. -/
theorem resolve_no_covering_interval_default_witness :
    resolveDept ∅ 9000 Dept.DOD =
      some (if (9000 : Int) < CR_DATA_CUTOFF_DATE
            then StatusKind.CR_DATA_CUTOFF_DEFAULT
            else StatusKind.DEFAULT) :=
  resolve_no_covering_interval_default ∅ 9000 Dept.DOD (by decide)
    (by decide)

/-- On a concrete status value, picking from its singleton set returns
that value. -/
theorem pickStatus_singleton (s : StatusKind) :
    pickStatus {s} = some s := by
  cases s <;> rfl

/-- When one covering record assigns `s` to `D` and every covering record
containing `D` assigns `s`, the matched status set is exactly `{s}`. -/
theorem matchedStatuses_singleton (t : IntervalTree) (T : Int) (D : Dept)
    (s : StatusKind) (r0 : IntervalRec) (hr0 : r0 ∈ t)
    (h1 : r0.first ≤ T) (h2 : T < r0.stop) (hD : D ∈ r0.depts)
    (hs : r0.status = s)
    (hall : ∀ r ∈ t, r.first ≤ T → T < r.stop → D ∈ r.depts →
      r.status = s) :
    matchedStatuses t T D = {s} := by
  apply Finset.eq_singleton_iff_unique_mem.mpr
  constructor
  · rw [matchedStatuses, Finset.mem_image]
    refine ⟨r0, ?_, hs⟩
    rw [matchedRecords, Finset.mem_filter]
    refine ⟨?_, hD⟩
    rw [pointQuery, Finset.mem_filter]
    exact ⟨hr0, h1, h2⟩
  · intro b hb
    rw [matchedStatuses, Finset.mem_image] at hb
    rcases hb with ⟨r, hr, hrb⟩
    rw [matchedRecords, Finset.mem_filter] at hr
    rcases hr with ⟨hpq, hd⟩
    rw [pointQuery, Finset.mem_filter] at hpq
    rw [← hrb]
    exact hall r hpq.1 hpq.2.1 hpq.2.2 hd

/-- A department whose matched statuses form the singleton `{s}` resolves
to `s`. -/
theorem resolveDept_of_singleton (t : IntervalTree) (T : Int) (D : Dept)
    (s : StatusKind) (hact : activeOn D T = true)
    (hs : matchedStatuses t T D = {s}) : resolveDept t T D = some s := by
  rw [resolveDept, hact, hs]
  simp [pickStatus_singleton]

/-- C4: the unified tree is the set union of the CR tree and the gap
tree with no merging or collapsing of overlapping records (every record
of either source tree remains independently retrievable, and nothing
else is present); consequently, for a day covered simultaneously by a CR
record for departments `A`, `B` and a gap record for department `C`, a
single resolution yields the CR status for `A` and `B` and the gap
status for `C`. -/
theorem unified_tree_union_resolution
    (crT : CRMapType) (gapT : AppropriationsGapsMapType)
    (t : IntervalTree) (T : Int) (A B C : Dept)
    (rcr rgap : IntervalRec)
    (ht : t = (init_tree crT gapT TreeState.initial).1)
    (hA : activeOn A T = true) (hB : activeOn B T = true)
    (hC : activeOn C T = true)
    (hrcr : rcr ∈ t) (hcr1 : rcr.first ≤ T) (hcr2 : T < rcr.stop)
    (hcrA : A ∈ rcr.depts) (hcrB : B ∈ rcr.depts)
    (hcrs : rcr.status = StatusKind.CONTINUING_RESOLUTION)
    (hrgap : rgap ∈ t) (hg1 : rgap.first ≤ T) (hg2 : T < rgap.stop)
    (hgC : C ∈ rgap.depts)
    (hgs : rgap.status = StatusKind.APPROPRIATIONS_GAP)
    (hallA : ∀ r ∈ t, r.first ≤ T → T < r.stop → A ∈ r.depts →
      r.status = StatusKind.CONTINUING_RESOLUTION)
    (hallB : ∀ r ∈ t, r.first ≤ T → T < r.stop → B ∈ r.depts →
      r.status = StatusKind.CONTINUING_RESOLUTION)
    (hallC : ∀ r ∈ t, r.first ≤ T → T < r.stop → C ∈ r.depts →
      r.status = StatusKind.APPROPRIATIONS_GAP) :
    (init_tree crT gapT TreeState.initial).1 =
      grow_cr_tree ∅ crT none ∪ grow_appropriation_gaps_tree ∅ gapT none ∧
    (∀ r : IntervalRec,
      r ∈ (init_tree crT gapT TreeState.initial).1 ↔
        r ∈ grow_cr_tree ∅ crT none ∨
        r ∈ grow_appropriation_gaps_tree ∅ gapT none) ∧
    resolveDept t T A = some StatusKind.CONTINUING_RESOLUTION ∧
    resolveDept t T B = some StatusKind.CONTINUING_RESOLUTION ∧
    resolveDept t T C = some StatusKind.APPROPRIATIONS_GAP := by
  refine ⟨rfl, ?_, ?_, ?_, ?_⟩
  · intro r
    exact Finset.mem_union
  · exact resolveDept_of_singleton t T A _ hA
      (matchedStatuses_singleton t T A _ rcr hrcr hcr1 hcr2 hcrA hcrs
        hallA)
  · exact resolveDept_of_singleton t T B _ hB
      (matchedStatuses_singleton t T B _ rcr hrcr hcr1 hcr2 hcrB hcrs
        hallB)
  · exact resolveDept_of_singleton t T C _ hC
      (matchedStatuses_singleton t T C _ rgap hrgap hg1 hg2 hgC hgs
        hallC)

/-- Witness for C4: day 115 is covered both by the CR record (complement
set excludes USDT) and by a gap record affecting USDT; one resolution
over the unified tree yields CR for DOD and DOS and the gap status for
USDT. -/
theorem unified_tree_union_resolution_witness :
    (init_tree [((100, 130), ({Dept.USDT} : Finset Dept))]
        [((100, 130), ({Dept.USDT}, ShutdownFlag.NO_SHUTDOWN))]
        TreeState.initial).1 =
      grow_cr_tree ∅ [((100, 130), ({Dept.USDT} : Finset Dept))] none ∪
      grow_appropriation_gaps_tree ∅
        [((100, 130), ({Dept.USDT}, ShutdownFlag.NO_SHUTDOWN))] none ∧
    (∀ r : IntervalRec,
      r ∈ (init_tree [((100, 130), ({Dept.USDT} : Finset Dept))]
          [((100, 130), ({Dept.USDT}, ShutdownFlag.NO_SHUTDOWN))]
          TreeState.initial).1 ↔
        r ∈ grow_cr_tree ∅ [((100, 130), ({Dept.USDT} : Finset Dept))]
          none ∨
        r ∈ grow_appropriation_gaps_tree ∅
          [((100, 130), ({Dept.USDT}, ShutdownFlag.NO_SHUTDOWN))] none) ∧
    resolveDept
      ((init_tree [((100, 130), ({Dept.USDT} : Finset Dept))]
        [((100, 130), ({Dept.USDT}, ShutdownFlag.NO_SHUTDOWN))]
        TreeState.initial).1) 115 Dept.DOD =
      some StatusKind.CONTINUING_RESOLUTION ∧
    resolveDept
      ((init_tree [((100, 130), ({Dept.USDT} : Finset Dept))]
        [((100, 130), ({Dept.USDT}, ShutdownFlag.NO_SHUTDOWN))]
        TreeState.initial).1) 115 Dept.DOS =
      some StatusKind.CONTINUING_RESOLUTION ∧
    resolveDept
      ((init_tree [((100, 130), ({Dept.USDT} : Finset Dept))]
        [((100, 130), ({Dept.USDT}, ShutdownFlag.NO_SHUTDOWN))]
        TreeState.initial).1) 115 Dept.USDT =
      some StatusKind.APPROPRIATIONS_GAP :=
  unified_tree_union_resolution
    [((100, 130), {Dept.USDT})]
    [((100, 130), ({Dept.USDT}, ShutdownFlag.NO_SHUTDOWN))]
    ((init_tree [((100, 130), ({Dept.USDT} : Finset Dept))]
      [((100, 130), ({Dept.USDT}, ShutdownFlag.NO_SHUTDOWN))]
      TreeState.initial).1)
    115 Dept.DOD Dept.DOS Dept.USDT
    (IntervalRec.mk 100 131
      ((DEPTS_SET \ {Dept.USDT}) \ {Dept.DHS})
      StatusKind.CONTINUING_RESOLUTION)
    (IntervalRec.mk 100 131 {Dept.USDT} StatusKind.APPROPRIATIONS_GAP)
    rfl
    (by decide) (by decide) (by decide)
    (by decide) (by decide) (by decide) (by decide) (by decide) (by decide)
    (by decide) (by decide) (by decide) (by decide) (by decide)
    (by decide) (by decide) (by decide)

/-- C5: building is idempotent.  A grow method invoked on a populated
internal tree returns that tree unchanged for any arguments, and
constructing the singleton `Tree` a second time leaves the cached
unified tree structurally identical to the first result, which holds no
duplicate records. -/
theorem build_is_idempotent (t : IntervalTree) (crT : CRMapType)
    (gapT : AppropriationsGapsMapType)
    (r1 r2 : Option (DateLike × DateLike)) (ht : t ≠ ∅) :
    grow_cr_tree t crT r1 = t ∧
    grow_appropriation_gaps_tree t gapT r2 = t ∧
    (treeNew crT gapT (treeNew crT gapT TreeState.initial)).tree =
      (treeNew crT gapT TreeState.initial).tree ∧
    (∀ u : IntervalTree,
      (treeNew crT gapT TreeState.initial).tree = some u →
        u.val.Nodup) := by
  refine ⟨?_, ?_, ?_, ?_⟩
  · rw [grow_cr_tree, if_pos ht]
  · rw [grow_appropriation_gaps_tree, if_pos ht]
  · have h1 : treeNew crT gapT TreeState.initial =
        ⟨some (grow_appropriation_gaps_tree ∅ gapT none),
         some (grow_cr_tree ∅ crT none),
         some (grow_cr_tree ∅ crT none),
         some (grow_appropriation_gaps_tree ∅ gapT none),
         some (grow_cr_tree ∅ crT none ∪
           grow_appropriation_gaps_tree ∅ gapT none)⟩ := rfl
    rw [h1]
    by_cases hU : grow_cr_tree ∅ crT none ∪
        grow_appropriation_gaps_tree ∅ gapT none = ∅
    · rcases Finset.union_eq_empty.mp hU with ⟨hA0, hG0⟩
      simp [treeNew, init_tree, optTreeTruthy, hU, hA0, hG0]
    · simp [treeNew, init_tree, optTreeTruthy, hU]
  · intro u hu
    exact u.nodup

/-- Witness for C5: a populated one-record tree is returned unchanged by
both growers, and the second singleton construction over the scenario
tables caches the identical duplicate-free unified tree. -/
theorem build_is_idempotent_witness :
    grow_cr_tree {IntervalRec.mk 0 1 ∅ StatusKind.DEFAULT}
      [((100, 130), ({Dept.USDT} : Finset Dept))] none =
      {IntervalRec.mk 0 1 ∅ StatusKind.DEFAULT} ∧
    grow_appropriation_gaps_tree {IntervalRec.mk 0 1 ∅ StatusKind.DEFAULT}
      [((200, 205), ({Dept.USDT}, ShutdownFlag.SHUTDOWN))] none =
      {IntervalRec.mk 0 1 ∅ StatusKind.DEFAULT} ∧
    (treeNew [((100, 130), ({Dept.USDT} : Finset Dept))]
        [((200, 205), ({Dept.USDT}, ShutdownFlag.SHUTDOWN))]
        (treeNew [((100, 130), ({Dept.USDT} : Finset Dept))]
          [((200, 205), ({Dept.USDT}, ShutdownFlag.SHUTDOWN))]
          TreeState.initial)).tree =
      (treeNew [((100, 130), ({Dept.USDT} : Finset Dept))]
        [((200, 205), ({Dept.USDT}, ShutdownFlag.SHUTDOWN))]
        TreeState.initial).tree ∧
    (∀ u : IntervalTree,
      (treeNew [((100, 130), ({Dept.USDT} : Finset Dept))]
        [((200, 205), ({Dept.USDT}, ShutdownFlag.SHUTDOWN))]
        TreeState.initial).tree = some u →
        u.val.Nodup) :=
  build_is_idempotent {IntervalRec.mk 0 1 ∅ StatusKind.DEFAULT}
    [((100, 130), {Dept.USDT})]
    [((200, 205), ({Dept.USDT}, ShutdownFlag.SHUTDOWN))]
    none none (by decide)

/-- C6 (divergence witness): for the bounding range given as the two
distinct calendar dates 2002-01-01 (day 11688) and 2003-01-01
(day 12053), `_get_overlap_interval` converts the upper bound from the
already-converted lower bound, so it reports no overlap for the interval
`(11688, 12053)` although the actually given range fully contains it and
the intersection the spec requires is `(11688, 12053)`. -/
theorem overlap_check_not_independent :
    _get_overlap_interval 11688 12053
      (some (DateLike.ymd 2002 1 1, DateLike.ymd 2003 1 1)) = none ∧
    clipSpec 11688 12053 (some (11688, 12053)) =
      some (11688, 12053) ∧
    (none : Option (Int × Int)) ≠ some (11688, 12053) := by
  refine ⟨by decide, by decide, by decide⟩

/-- C7 (divergence witness): a component of the interval normalizer input
that is already an integer day offset is not returned unchanged — the
botched `is not isinstance` guard sends day 12016 (2002-11-25) through
the POSIX-seconds conversion, collapsing it to day 0 — while the same
date in a calendar representation converts to its canonical day offset
12016 as claimed. -/
theorem date_interval_int_not_noop :
    _get_date_interval (DateLike.posix 12016, DateLike.posix 12016) =
      (0, 0) ∧
    ((0 : Int), (0 : Int)) ≠ ((12016 : Int), (12016 : Int)) ∧
    _get_date_interval (DateLike.ymd 2002 11 25, DateLike.ymd 2002 11 25) =
      (12016, 12016) := by
  refine ⟨by decide, by decide, by decide⟩

/-- C8 (divergence witness): with no bounding range the clip returns the
interval unchanged, but the no-overlap signal is not returned if and
only if the interval and the given range are disjoint: for the interval
`(5, 7)` and the integer range `(5, 7)` — not disjoint, spec intersection
`(5, 7)` — the converted range collapses and the code returns `None`. -/
theorem overlap_none_signal_not_iff_disjoint :
    _get_overlap_interval 5 7 none = some (5, 7) ∧
    _get_overlap_interval 5 7
      (some (DateLike.posix 5, DateLike.posix 7)) = none ∧
    clipSpec 5 7 (some (5, 7)) = some (5, 7) ∧
    (none : Option (Int × Int)) ≠ some (5, 7) := by
  refine ⟨by decide, by decide, by decide, by decide⟩

/-- C10: a call to `to_fedstamp` with an argument count other than 1 or 3
(including zero arguments) raises ValueError and constructs no FedStamp,
and a 3-argument call is interpreted as a `(year, month, day)` tuple
before conversion. -/
theorem to_fedstamp_argument_count (args : List Int) (y m d : Int)
    (hc : args.length ≠ 1 ∧ args.length ≠ 3)
    (hy : 1970 ≤ y ∧ y ≤ 9999) :
    (∃ msg, to_fedstamp args = Except.error msg) ∧
    to_fedstamp [y, m, d] =
      (_timetuple_to_timestamp [y, m, d]).map (fun t => FedStamp.mk t) ∧
    to_fedstamp [y, m, d] =
      Except.ok (FedStamp.mk (daysFromCivil y m d)) := by
  have h1 : to_fedstamp args =
      Except.error
        "invalid number of arguments: to_fedstamp() requires either 1 argument, or 3 integers as YYYY, M, D" := by
    rw [to_fedstamp]
    simp [hc.1, hc.2]
  refine ⟨⟨_, h1⟩, ?_, ?_⟩
  · rw [to_fedstamp]
    simp
  · rw [to_fedstamp]
    simp [_timetuple_to_timestamp, hy.1, hy.2]
    rfl

/-- Witness for C10: the zero-argument call fails, and
`to_fedstamp(2020, 5, 4)` builds the FedStamp of 2020-05-04. -/
theorem to_fedstamp_argument_count_witness :
    (∃ msg, to_fedstamp [] = Except.error msg) ∧
    to_fedstamp [2020, 5, 4] =
      (_timetuple_to_timestamp [2020, 5, 4]).map (fun t => FedStamp.mk t) ∧
    to_fedstamp [2020, 5, 4] =
      Except.ok (FedStamp.mk (daysFromCivil 2020 5 4)) :=
  to_fedstamp_argument_count [] 2020 5 4 (by decide) (by decide)
